import Mathlib

/-!
Verification of the grocery-delivery backend (order checkout, status state
machine, invoice numbering, cart management, address book).

Shallow embedding conventions:
* Monetary amounts (`Numeric(10,2)` decimals in the source) are integers in
  hundredths of a currency unit (øre); the source only adds amounts and
  multiplies them by integer quantities, so this scaling is exact.
* Every table is a list kept in insertion order (ascending primary key /
  ascending autoincrement id).
* Row ids are natural numbers; freshly generated ids (``uuid4`` in the
  source) enter the functions as explicit parameters.
* ``async`` service methods that raise ``ValueError`` become functions into
  `Except String`; an `Except.error` result models the raised error, with the
  enclosing transaction rolled back, so no state is produced on that path.
* Fields never read by the verified operations (product snapshots, image
  data, timestamps) are elided from the record types.
-/

namespace Grocery

/-- Money in hundredths of a currency unit (models `Decimal` / `Numeric(10,2)`). -/
abbrev Money := Int

/-- Product row (`app/models/product.py`): fields used by the services. -/
structure Product where
  id : Nat
  price : Money
  isActive : Bool
  deriving Repr, DecidableEq

/-- Cart line (`app/models/cart.py` `CartItem`): keyed by product within a cart. -/
structure CartItem where
  productId : Nat
  quantity : Nat
  deriving Repr, DecidableEq

/-- Cart row (`app/models/cart.py` `Cart`): one per user, with its loaded items. -/
structure Cart where
  userId : Nat
  items : List CartItem
  deriving Repr, DecidableEq

/-- Service-area row (`app/models/address.py` `ServicePostcode`). -/
structure ServicePostcode where
  postcode : String
  cityName : String
  isActive : Bool
  deriving Repr, DecidableEq

/-- Saved address row (`app/models/address.py` `Address`). -/
structure Address where
  id : Nat
  userId : Nat
  label : Option String
  postcode : String
  city : String
  street : String
  building : Option String
  floor : Option String
  apartment : Option String
  instructions : Option String
  isVerified : Bool
  isDefault : Bool
  deriving Repr, DecidableEq

/-- Order status enum (`app/models/order.py` `OrderStatus`). -/
inductive OrderStatus where
  | PLACED
  | CONFIRMED
  | PACKING
  | OUT_FOR_DELIVERY
  | DELIVERED
  | CANCELED
  deriving Repr, DecidableEq, Fintype

/-- The `.value` string of each enum member. -/
def OrderStatus.value : OrderStatus → String
  | .PLACED => "PLACED"
  | .CONFIRMED => "CONFIRMED"
  | .PACKING => "PACKING"
  | .OUT_FOR_DELIVERY => "OUT_FOR_DELIVERY"
  | .DELIVERED => "DELIVERED"
  | .CANCELED => "CANCELED"

/-- `OrderStatus.valid_transitions`: the allowed-next-states table. -/
def OrderStatus.validTransitions : OrderStatus → List OrderStatus
  | .PLACED => [.CONFIRMED, .CANCELED]
  | .CONFIRMED => [.PACKING, .CANCELED]
  | .PACKING => [.OUT_FOR_DELIVERY, .CANCELED]
  | .OUT_FOR_DELIVERY => [.DELIVERED, .CANCELED]
  | .DELIVERED => []
  | .CANCELED => []

/-- `OrderStatus.can_transition_to`. -/
def OrderStatus.canTransitionTo (s t : OrderStatus) : Bool :=
  t ∈ s.validTransitions

/-- Order line item (`app/models/order.py` `OrderItem`). -/
structure OrderItem where
  productId : Nat
  quantity : Nat
  priceAtPurchase : Money
  lineTotal : Money
  deriving Repr, DecidableEq

/-- Status-history row (`app/models/order.py` `OrderStatusHistory`). -/
structure StatusHistoryEntry where
  status : OrderStatus
  changedBy : Option Nat
  notes : Option String
  deriving Repr, DecidableEq

/-- Order row (`app/models/order.py` `Order`) with its loaded items and history. -/
structure Order where
  id : Nat
  userId : Nat
  addressId : Nat
  status : OrderStatus
  subtotal : Money
  deliveryFee : Money
  total : Money
  invoiceNumber : String
  notes : Option String
  items : List OrderItem
  history : List StatusHistoryEntry
  deriving Repr, DecidableEq

/-- Database state: each table as a list in insertion (ascending id) order.
`invoices` holds the `invoice_number` column of the `invoices` table. -/
structure Db where
  products : List Product
  servicePostcodes : List ServicePostcode
  addresses : List Address
  carts : List Cart
  orders : List Order
  invoices : List String
  deriving Repr, DecidableEq

/-- Global configuration (`app/config.py` `Settings`): the fields checkout reads. -/
structure Settings where
  deliveryFee : Money
  deriving Repr, DecidableEq

/-- Replace the first element satisfying `p` by its image under `f`; the
ORM mutates exactly the single row fetched by `scalar_one_or_none` (primary
keys are unique), which is the first — and only — match. -/
def updateFirst (p : α → Bool) (f : α → α) : List α → List α
  | [] => []
  | x :: xs => if p x then f x :: xs else x :: updateFirst p f xs

/-! ### Schemas (`app/schemas/*.py`) -/

/-- `CartItemAdd` payload; the schema constrains `quantity` to `gt=0, le=99`. -/
structure CartItemAdd where
  productId : Nat
  quantity : Nat
  deriving Repr, DecidableEq

/-- The pydantic bounds on `CartItemAdd.quantity` (`gt=0, le=99`). -/
def CartItemAdd.valid (d : CartItemAdd) : Prop :=
  0 < d.quantity ∧ d.quantity ≤ 99

/-- `AddressCreate` payload (all base fields required or defaulted). -/
structure AddressCreate where
  postcode : String
  city : String
  street : String
  building : Option String
  floor : Option String
  apartment : Option String
  instructions : Option String
  label : Option String
  isDefault : Bool
  deriving Repr, DecidableEq

/-- `AddressUpdate` payload: `none` in the outer `Option` models a field
absent from the request (`model_dump(exclude_unset=True)` omits it); the
inner `Option` of the nullable columns is their stored value. The schema
has no postcode or city field. -/
structure AddressUpdate where
  street : Option String
  building : Option (Option String)
  floor : Option (Option String)
  apartment : Option (Option String)
  instructions : Option (Option String)
  label : Option (Option String)
  isDefault : Option Bool
  deriving Repr, DecidableEq

/-- `OrderCreate` payload. -/
structure OrderCreate where
  addressId : Nat
  notes : Option String
  deriving Repr, DecidableEq

/-! ### Address service (`app/services/address_service.py`) -/

/-- `AddressService.verify_postcode`: `(is_valid, city_name)`. -/
def verifyPostcode (db : Db) (pc : String) : Bool × Option String :=
  match db.servicePostcodes.find? (fun sp => sp.postcode == pc && sp.isActive) with
  | some sp => (true, some sp.cityName)
  | none => (false, none)

/-- `AddressService.get_address_by_id`. -/
def getAddressById (db : Db) (addressId userId : Nat) : Option Address :=
  db.addresses.find? (fun a => a.id == addressId && a.userId == userId)

/-- `AddressService.get_verified_address`. -/
def getVerifiedAddress (db : Db) (addressId userId : Nat) : Option Address :=
  db.addresses.find? (fun a => a.id == addressId && a.userId == userId && a.isVerified)

/-- `AddressService._unset_default_addresses`: one bulk `UPDATE` clearing
`is_default` on every address of the user that has it set. -/
def unsetDefaultAddresses (db : Db) (userId : Nat) : Db :=
  { db with addresses := db.addresses.map fun a =>
      if a.userId == userId && a.isDefault then { a with isDefault := false } else a }

/-- `AddressService.create_address`; `newId` is the generated primary key. -/
def createAddress (db : Db) (userId newId : Nat) (data : AddressCreate) :
    Except String (Db × Address) :=
  let v := verifyPostcode db data.postcode
  if !v.1 then
    .error ("Postcode " ++ data.postcode ++ " is not in our service area")
  else
    let db1 := if data.isDefault then unsetDefaultAddresses db userId else db
    let address : Address :=
      { id := newId, userId := userId, label := data.label, postcode := data.postcode,
        city := data.city, street := data.street, building := data.building,
        floor := data.floor, apartment := data.apartment,
        instructions := data.instructions, isVerified := true,
        isDefault := data.isDefault }
    .ok ({ db1 with addresses := db1.addresses ++ [address] }, address)

/-- The `setattr` loop of `AddressService.update_address`: each field present
in the request overwrites the stored one. -/
def applyAddressUpdate (a : Address) (u : AddressUpdate) : Address :=
  { a with
    street := u.street.getD a.street
    building := u.building.getD a.building
    floor := u.floor.getD a.floor
    apartment := u.apartment.getD a.apartment
    instructions := u.instructions.getD a.instructions
    label := u.label.getD a.label
    isDefault := u.isDefault.getD a.isDefault }

/-- `AddressService.update_address`: fetch the row, clear other defaults when
the request sets `is_default` to true (the bulk update also clears the
fetched row, which the session synchronizes), apply the present fields,
return the updated row. `none` models the not-found path. -/
def updateAddress (db : Db) (addressId userId : Nat) (u : AddressUpdate) :
    Option (Db × Address) :=
  match getAddressById db addressId userId with
  | none => none
  | some a0 =>
    let db1 := if u.isDefault == some true then unsetDefaultAddresses db userId else db
    let a1 := if u.isDefault == some true then { a0 with isDefault := false } else a0
    let rows := updateFirst (fun a => a.id == addressId && a.userId == userId)
      (fun a => applyAddressUpdate a u) db1.addresses
    some ({ db1 with addresses := rows }, applyAddressUpdate a1 u)

/-! ### Cart service (`app/services/cart_service.py`) -/

/-- `CartService.get_cart`. -/
def getCart (db : Db) (userId : Nat) : Option Cart :=
  db.carts.find? (fun c => c.userId == userId)

/-- `CartService.get_or_create_cart`. -/
def getOrCreateCart (db : Db) (userId : Nat) : Db × Cart :=
  match getCart db userId with
  | some c => (db, c)
  | none =>
    let c : Cart := { userId := userId, items := [] }
    ({ db with carts := db.carts ++ [c] }, c)

/-- `CartService._get_active_product`. -/
def getActiveProduct (db : Db) (productId : Nat) : Option Product :=
  db.products.find? (fun p => p.id == productId && p.isActive)

/-- Write back the items of the user's cart row. -/
def setCartItems (db : Db) (userId : Nat) (items : List CartItem) : Db :=
  { db with carts := db.carts.map fun c =>
      if c.userId == userId then { c with items := items } else c }

/-- The mutation step of `CartService.add_item` on the loaded item list:
increment the existing line or insert a new one. -/
def addItemToItems (items : List CartItem) (d : CartItemAdd) : List CartItem :=
  match items.find? (fun it => it.productId == d.productId) with
  | some existing =>
    updateFirst (fun it => it.productId == d.productId)
      (fun it => { it with quantity := existing.quantity + d.quantity }) items
  | none => items ++ [{ productId := d.productId, quantity := d.quantity }]

/-- `CartService.add_item`. -/
def addItem (db : Db) (userId : Nat) (d : CartItemAdd) : Except String Db :=
  let dc := getOrCreateCart db userId
  match getActiveProduct dc.1 d.productId with
  | none => .error "Product not found or unavailable"
  | some _ => .ok (setCartItems dc.1 userId (addItemToItems dc.2.items d))

/-- One iteration of the `CartService.sync_guest_cart` loop: skip a missing
or inactive product, otherwise keep the higher quantity or insert. -/
def syncOneItem (db : Db) (items : List CartItem) (d : CartItemAdd) : List CartItem :=
  match getActiveProduct db d.productId with
  | none => items
  | some _ =>
    match items.find? (fun it => it.productId == d.productId) with
    | some existing =>
      updateFirst (fun it => it.productId == d.productId)
        (fun it => { it with quantity := max existing.quantity d.quantity }) items
    | none => items ++ [{ productId := d.productId, quantity := d.quantity }]

/-- `CartService.sync_guest_cart`. -/
def syncGuestCart (db : Db) (userId : Nat) (ds : List CartItemAdd) : Db :=
  let dc := getOrCreateCart db userId
  setCartItems dc.1 userId (ds.foldl (syncOneItem dc.1) dc.2.items)

/-- `CartService.clear_cart`. -/
def clearCart (db : Db) (userId : Nat) : Db :=
  match getCart db userId with
  | some _ => setCartItems db userId []
  | none => db

/-! ### Order service (`app/services/order_service.py`) -/

/-- The SQL pattern `INV-{year}-%` used by `_generate_invoice_number`. -/
def invoiceLikePattern (year : Nat) : String :=
  "INV-" ++ toString year ++ "-"

/-- `LIKE 'INV-{year}-%'` on an invoice number. -/
def matchesInvoiceYear (year : Nat) (inv : String) : Bool :=
  (invoiceLikePattern year).data.isPrefixOf inv.data

/-- Python `str.split("-")`, on the character list of the string. -/
def splitOnDash : List Char → List (List Char)
  | [] => [[]]
  | c :: cs =>
    match splitOnDash cs with
    | [] => [[c]]
    | h :: t => if c == '-' then [] :: h :: t else (c :: h) :: t

/-- Python `int(s)` on the strings reachable here (runs of decimal digits);
`none` models the `ValueError` on an empty or non-digit component. -/
def pyInt? (l : List Char) : Option Nat :=
  if l ≠ [] ∧ l.all Char.isDigit then
    some (l.foldl (fun n c => n * 10 + (c.toNat - '0'.toNat)) 0)
  else none

/-- `int(last_invoice.split("-")[-1])` as an `Option`. -/
def parseTrailingSeq (inv : String) : Option Nat :=
  match (splitOnDash inv.data).getLast? with
  | some comp => pyInt? comp
  | none => none

/-- Python `f"{seq:06d}"`: zero-pad to at least six characters. -/
def padZeros (s : String) (w : Nat) : String :=
  if s.length < w then String.mk (List.replicate (w - s.length) '0') ++ s else s

/-- The returned string `f"INV-{year}-{next_seq:06d}"`. -/
def formatInvoiceNumber (year seq : Nat) : String :=
  invoiceLikePattern year ++ padZeros (toString seq) 6

/-- The `next_seq` computation of `_generate_invoice_number`: take the most
recently inserted (`ORDER BY id DESC LIMIT 1`) invoice number matching
`INV-{year}-%`, parse its trailing component and add one; fall back to `1`
when there is none or parsing fails. -/
def nextInvoiceSeq (db : Db) (year : Nat) : Nat :=
  match db.invoices.reverse.find? (matchesInvoiceYear year) with
  | some last =>
    match parseTrailingSeq last with
    | some n => n + 1
    | none => 1
  | none => 1

/-- `OrderService._generate_invoice_number`; the current calendar year is an
explicit parameter. -/
def generateInvoiceNumber (db : Db) (year : Nat) : String :=
  formatInvoiceNumber year (nextInvoiceSeq db year)

/-- The body of the `create_order` pricing loop: skip a missing or inactive
product, otherwise price the line at the product's current price and
accumulate the subtotal and the order-item list. -/
def orderLineFold (db : Db) (acc : Money × List OrderItem) (ci : CartItem) :
    Money × List OrderItem :=
  match db.products.find? (fun p => p.id == ci.productId) with
  | none => acc
  | some p =>
    if p.isActive then
      let priceAtPurchase := p.price
      let lineTotal := priceAtPurchase * (ci.quantity : Int)
      (acc.1 + lineTotal,
        acc.2 ++ [{ productId := ci.productId, quantity := ci.quantity,
                    priceAtPurchase := priceAtPurchase, lineTotal := lineTotal }])
    else acc

/-- `OrderService.create_order`; `year` is the current calendar year and
`newOrderId` the generated primary key of the new order. -/
def createOrder (db : Db) (cfg : Settings) (year userId newOrderId : Nat)
    (data : OrderCreate) : Except String (Db × Order) :=
  match getVerifiedAddress db data.addressId userId with
  | none => .error "Please select a verified delivery address"
  | some address =>
    match getCart db userId with
    | none => .error "Your cart is empty"
    | some cart =>
      if cart.items.isEmpty then .error "Your cart is empty"
      else
        let st := cart.items.foldl (orderLineFold db) ((0 : Money), [])
        if st.2.isEmpty then .error "No valid items in cart"
        else
          let deliveryFee := cfg.deliveryFee
          let total := st.1 + deliveryFee
          let invoiceNumber := generateInvoiceNumber db year
          let order : Order :=
            { id := newOrderId, userId := userId, addressId := address.id,
              status := .PLACED, subtotal := st.1, deliveryFee := deliveryFee,
              total := total, invoiceNumber := invoiceNumber, notes := data.notes,
              items := st.2,
              history := [{ status := .PLACED, changedBy := none,
                            notes := some "Order placed by customer" }] }
          let db1 := { db with orders := db.orders ++ [order]
                               invoices := db.invoices ++ [invoiceNumber] }
          .ok (clearCart db1 userId, order)

/-- `OrderService.get_order_admin`. -/
def getOrderAdmin (db : Db) (orderId : Nat) : Option Order :=
  db.orders.find? (fun o => o.id == orderId)

/-- `OrderService.update_order_status`. -/
def updateOrderStatus (db : Db) (orderId : Nat) (newStatus : OrderStatus)
    (notes : Option String) (changedBy : Option Nat) : Except String (Db × Order) :=
  match getOrderAdmin db orderId with
  | none => .error "Order not found"
  | some order =>
    if !order.status.canTransitionTo newStatus then
      .error ("Invalid status transition from " ++ order.status.value ++
              " to " ++ newStatus.value)
    else
      let updated := { order with
        status := newStatus,
        history := order.history ++ [{ status := newStatus, changedBy := changedBy,
                                       notes := notes }] }
      let rows := updateFirst (fun o => o.id == orderId) (fun _ => updated) db.orders
      .ok ({ db with orders := rows }, updated)

/-! ### Derived observations and claim-side comparison definitions -/

/-- The quantity of the cart line for a product, if any. -/
def cartQuantity (items : List CartItem) (pid : Nat) : Option Nat :=
  (items.find? (fun it => it.productId == pid)).map CartItem.quantity

/-- The merge rule the specification states for cart sync: keep the maximum
of an existing line's quantity and the incoming one, insert otherwise. -/
def mergeQty : Option Nat → Nat → Option Nat
  | some q, d => some (max q d)
  | none, d => some d

/-- Per-product effect of a guest-cart merge as the specification describes
it: pairs for other products or for missing/inactive products leave the
quantity alone; pairs for the product apply `mergeQty`. -/
def expectedMergedQty (db : Db) (pid : Nat) (q0 : Option Nat)
    (ds : List CartItemAdd) : Option Nat :=
  ds.foldl
    (fun acc d =>
      if d.productId == pid && (getActiveProduct db d.productId).isSome then
        mergeQty acc d.quantity
      else acc)
    q0

/-- The allowed-next-states table exactly as the claim enumerates it. -/
def claimAllowedPairs : List (OrderStatus × OrderStatus) :=
  [(.PLACED, .CONFIRMED), (.PLACED, .CANCELED),
   (.CONFIRMED, .PACKING), (.CONFIRMED, .CANCELED),
   (.PACKING, .OUT_FOR_DELIVERY), (.PACKING, .CANCELED),
   (.OUT_FOR_DELIVERY, .DELIVERED), (.OUT_FOR_DELIVERY, .CANCELED)]

/-! ### Concrete sample data -/

/-- User 7's concrete cart: two active products and one inactive product. -/
def sampleCart : Cart :=
  { userId := 7, items := [ { productId := 1, quantity := 2 },
                            { productId := 2, quantity := 1 },
                            { productId := 3, quantity := 4 } ] }

/-- A small concrete database: two active products, one inactive product,
a verified default address of user 7, and user 7's cart holding all three. -/
def sampleDb : Db :=
  { products := [ { id := 1, price := 2495, isActive := true },
                  { id := 2, price := 1250, isActive := true },
                  { id := 3, price := 999, isActive := false } ],
    servicePostcodes := [ { postcode := "8000", cityName := "Aarhus", isActive := true } ],
    addresses := [ { id := 10, userId := 7, label := some "Home", postcode := "8000",
                     city := "Aarhus", street := "Main St", building := none,
                     floor := none, apartment := none, instructions := none,
                     isVerified := true, isDefault := true } ],
    carts := [sampleCart],
    orders := [], invoices := [] }

/-- A cart of user 7 already holding product 1 with quantity 5. -/
def guestSyncCart : Cart :=
  { userId := 7, items := [ { productId := 1, quantity := 5 } ] }

/-- A database whose single cart already holds product 1 with quantity 5. -/
def guestSyncDb : Db :=
  { products := [ { id := 1, price := 1000, isActive := true } ],
    servicePostcodes := [], addresses := [],
    carts := [guestSyncCart],
    orders := [], invoices := [] }

/-- A cart of user 7 already holding product 1 with quantity 98. -/
def bigQtyCart : Cart :=
  { userId := 7, items := [ { productId := 1, quantity := 98 } ] }

/-- A database whose single cart already holds product 1 with quantity 98. -/
def bigQtyDb : Db :=
  { products := [ { id := 1, price := 1000, isActive := true } ],
    servicePostcodes := [], addresses := [],
    carts := [bigQtyCart],
    orders := [], invoices := [] }

/-- The order `createOrder` creates from `sampleDb` for user 7. -/
def sampleOrder : Order :=
  { id := 100, userId := 7, addressId := 10, status := .PLACED,
    subtotal := 6240, deliveryFee := 2900, total := 9140,
    invoiceNumber := "INV-2026-000001", notes := none,
    items := [ { productId := 1, quantity := 2, priceAtPurchase := 2495,
                 lineTotal := 4990 },
               { productId := 2, quantity := 1, priceAtPurchase := 1250,
                 lineTotal := 1250 } ],
    history := [ { status := .PLACED, changedBy := none,
                   notes := some "Order placed by customer" } ] }

/-- `sampleDb` after the checkout of `sampleOrder`: cart cleared, order and
invoice rows appended. -/
def sampleDbAfter : Db :=
  { sampleDb with
    carts := [ { userId := 7, items := [] } ],
    orders := [sampleOrder],
    invoices := ["INV-2026-000001"] }

/-- A database holding just `sampleOrder` (status `PLACED`), for exercising
status transitions. -/
def sampleOrderDb : Db :=
  { products := [], servicePostcodes := [], addresses := [], carts := [],
    orders := [sampleOrder], invoices := ["INV-2026-000001"] }

/-! ### List helper lemmas -/

theorem find?_map_comm {α : Type} (g : α → α) (p : α → Bool)
    (hg : ∀ a, p (g a) = p a) :
    ∀ l : List α, (l.map g).find? p = (l.find? p).map g := by
  intro l
  induction l with
  | nil => rfl
  | cons x xs ih =>
    simp only [List.map_cons, List.find?_cons, hg x]
    cases hx : p x <;> simp [hx, ih]

theorem find?_updateFirst {α : Type} (p : α → Bool) (f : α → α) :
    ∀ (l : List α) (a : α), l.find? p = some a → p (f a) = true →
      (updateFirst p f l).find? p = some (f a) := by
  intro l
  induction l with
  | nil => intro a h _; simp [List.find?] at h
  | cons x xs ih =>
    intro a h hf
    cases hx : p x with
    | true =>
      rw [List.find?_cons_of_pos _ hx] at h
      injection h with h
      subst h
      simp [updateFirst, hx, List.find?_cons_of_pos _ hf]
    | false =>
      rw [List.find?_cons_of_neg _ (by simp [hx])] at h
      simp only [updateFirst, hx, Bool.false_eq_true, if_false]
      rw [List.find?_cons_of_neg _ (by simp [hx])]
      exact ih a h hf

theorem find?_updateFirst_of_disjoint {α : Type} (p q : α → Bool) (f : α → α)
    (hq : ∀ a, p a = true → q (f a) = false ∧ q a = false) :
    ∀ l : List α, (updateFirst p f l).find? q = l.find? q := by
  intro l
  induction l with
  | nil => rfl
  | cons x xs ih =>
    cases hx : p x with
    | true =>
      have hqs := hq x hx
      simp [updateFirst, hx, List.find?_cons, hqs.1, hqs.2]
    | false =>
      cases hqx : q x with
      | true => simp [updateFirst, hx, List.find?_cons, hqx]
      | false => simp [updateFirst, hx, List.find?_cons, hqx, ih]

theorem find?_append_some {α : Type} (q : α → Bool) (l l2 : List α) (a : α)
    (h : l.find? q = some a) : (l ++ l2).find? q = some a := by
  induction l with
  | nil => simp [List.find?] at h
  | cons x xs ih =>
    cases hx : q x with
    | true =>
      rw [List.find?_cons_of_pos _ hx] at h
      simp [List.find?_cons_of_pos _ hx, h]
    | false =>
      rw [List.find?_cons_of_neg _ (by simp [hx])] at h
      simp only [List.cons_append]
      rw [List.find?_cons_of_neg _ (by simp [hx])]
      exact ih h

theorem find?_append_none {α : Type} (q : α → Bool) (l l2 : List α)
    (h : l.find? q = none) : (l ++ l2).find? q = l2.find? q := by
  induction l with
  | nil => rfl
  | cons x xs ih =>
    cases hx : q x with
    | true => rw [List.find?_cons_of_pos _ hx] at h; exact absurd h (by simp)
    | false =>
      rw [List.find?_cons_of_neg _ (by simp [hx])] at h
      simp only [List.cons_append]
      rw [List.find?_cons_of_neg _ (by simp [hx])]
      exact ih h

theorem countP_updateFirst_le_succ {α : Type} (p q : α → Bool) (f : α → α) :
    ∀ l : List α, (updateFirst p f l).countP q ≤ l.countP q + 1 := by
  intro l
  induction l with
  | nil => simp [updateFirst]
  | cons x xs ih =>
    cases hx : p x with
    | true =>
      simp only [updateFirst, hx, if_true, List.countP_cons]
      have : (if q (f x) = true then 1 else 0) ≤ (if q x = true then 1 else 0) + 1 := by
        split <;> split <;> omega
      omega
    | false =>
      simp only [updateFirst, hx, Bool.false_eq_true, if_false, List.countP_cons]
      omega

theorem countP_updateFirst_le {α : Type} (p q : α → Bool) (f : α → α)
    (h : ∀ a, p a = true → q (f a) = true → q a = true) :
    ∀ l : List α, (updateFirst p f l).countP q ≤ l.countP q := by
  intro l
  induction l with
  | nil => simp [updateFirst]
  | cons x xs ih =>
    cases hx : p x with
    | true =>
      simp only [updateFirst, hx, if_true, List.countP_cons]
      have : (if q (f x) = true then 1 else 0) ≤ (if q x = true then 1 else 0) := by
        split
        · rw [if_pos (h x hx (by assumption))]
        · omega
      omega
    | false =>
      simp only [updateFirst, hx, Bool.false_eq_true, if_false, List.countP_cons]
      omega

theorem countP_map_congr {α : Type} (g : α → α) (q : α → Bool)
    (h : ∀ a, q (g a) = q a) (l : List α) :
    (l.map g).countP q = l.countP q := by
  induction l with
  | nil => rfl
  | cons x xs ih => simp [List.countP_cons, h x, ih]

/-! ### C2: status state machine -/

theorem canTransitionTo_iff_claimTable :
    ∀ A B : OrderStatus, A.canTransitionTo B = true ↔ (A, B) ∈ claimAllowedPairs := by
  decide

/-- C2: for an order with current status A, `update_order_status` to B
succeeds iff (A, B) is in the allowed-next-states table (PLACED→CONFIRMED or
CANCELED; CONFIRMED→PACKING or CANCELED; PACKING→OUT_FOR_DELIVERY or
CANCELED; OUT_FOR_DELIVERY→DELIVERED or CANCELED; DELIVERED and CANCELED
terminal); on success the order's status becomes B and exactly one history
record is appended; on failure it returns a validation error, mutating
nothing — the error is raised before any write, so no updated state is
produced. -/
theorem updateOrderStatus_transition_spec (db : Db) (oid : Nat) (order : Order)
    (B : OrderStatus) (notes : Option String) (actor : Option Nat)
    (h : getOrderAdmin db oid = some order) :
    ((∃ r, updateOrderStatus db oid B notes actor = .ok r) ↔
        (order.status, B) ∈ claimAllowedPairs) ∧
    (∀ db' o', updateOrderStatus db oid B notes actor = .ok (db', o') →
        o'.status = B ∧
        o'.history = order.history ++ [{ status := B, changedBy := actor, notes := notes }] ∧
        getOrderAdmin db' oid = some o') ∧
    ((order.status, B) ∉ claimAllowedPairs →
        updateOrderStatus db oid B notes actor =
          .error ("Invalid status transition from " ++ order.status.value ++
                  " to " ++ B.value)) := by
  have htab := canTransitionTo_iff_claimTable order.status B
  cases hc : order.status.canTransitionTo B with
  | false =>
    have hne : (order.status, B) ∉ claimAllowedPairs := by
      intro hm
      rw [← htab] at hm
      exact absurd (hc ▸ hm) (by simp)
    refine ⟨?_, ?_, ?_⟩
    · constructor
      · rintro ⟨r, hr⟩
        simp [updateOrderStatus, h, hc] at hr
      · intro hm
        exact absurd hm hne
    · intro db' o' hr
      simp [updateOrderStatus, h, hc] at hr
    · intro _
      simp only [updateOrderStatus, h, hc, Bool.not_false, if_true]
  | true =>
    have hmem : (order.status, B) ∈ claimAllowedPairs := htab.mp hc
    have hfind : db.orders.find? (fun o => o.id == oid) = some order := h
    have hoid := List.find?_some hfind
    refine ⟨?_, ?_, ?_⟩
    · cases hE : updateOrderStatus db oid B notes actor with
      | error e => simp [updateOrderStatus, h, hc] at hE
      | ok r => exact iff_of_true ⟨r, rfl⟩ hmem
    · intro db' o' hr
      simp only [updateOrderStatus, h, hc, Bool.not_true, Bool.false_eq_true, if_false,
        Except.ok.injEq, Prod.mk.injEq] at hr
      obtain ⟨h2, h1⟩ := hr
      refine ⟨by rw [← h1], by rw [← h1], ?_⟩
      rw [← h2, ← h1]
      exact find?_updateFirst _ _ db.orders order hfind hoid
    · intro hm
      exact absurd hmem hm

/-- C2 witness: concrete PLACED order, transition request to CONFIRMED. -/
theorem updateOrderStatus_transition_spec_witness :
    ((∃ r, updateOrderStatus sampleOrderDb 100 .CONFIRMED none (some 3) = .ok r) ↔
        (sampleOrder.status, OrderStatus.CONFIRMED) ∈ claimAllowedPairs) ∧
    (∀ db' o', updateOrderStatus sampleOrderDb 100 .CONFIRMED none (some 3) = .ok (db', o') →
        o'.status = .CONFIRMED ∧
        o'.history = sampleOrder.history ++
          [{ status := .CONFIRMED, changedBy := some 3, notes := none }] ∧
        getOrderAdmin db' 100 = some o') ∧
    ((sampleOrder.status, OrderStatus.CONFIRMED) ∉ claimAllowedPairs →
        updateOrderStatus sampleOrderDb 100 .CONFIRMED none (some 3) =
          .error ("Invalid status transition from " ++ sampleOrder.status.value ++
                  " to " ++ OrderStatus.CONFIRMED.value)) :=
  updateOrderStatus_transition_spec sampleOrderDb 100 sampleOrder .CONFIRMED none (some 3)
    (by decide)

/-! ### C5: service-area gate on address creation -/

/-- C5: for a postcode with no active row in the service-area registry,
`verify_postcode` answers not-serviceable with no city name and
`create_address` for that postcode fails with a validation error (so no
address row is produced); conversely every successfully created address has
`is_verified = true`, and success implies its postcode passed the
service-area check on the creation-time database. -/
theorem verifyPostcode_gates_createAddress (db : Db) (pc : String) (u i : Nat)
    (d : AddressCreate) :
    ((∀ sp ∈ db.servicePostcodes, sp.postcode = pc → sp.isActive = false) →
        verifyPostcode db pc = (false, none) ∧
        (d.postcode = pc →
          createAddress db u i d =
            .error ("Postcode " ++ pc ++ " is not in our service area"))) ∧
    (∀ db' a, createAddress db u i d = .ok (db', a) →
        a.isVerified = true ∧ (verifyPostcode db d.postcode).1 = true) := by
  constructor
  · intro hreg
    have hfind : db.servicePostcodes.find? (fun sp => sp.postcode == pc && sp.isActive) = none := by
      rw [List.find?_eq_none]
      intro sp hsp
      simp only [Bool.and_eq_true, beq_iff_eq, not_and]
      intro hpc
      rw [hreg sp hsp hpc]
      simp
    have hv : verifyPostcode db pc = (false, none) := by
      simp [verifyPostcode, hfind]
    refine ⟨hv, ?_⟩
    intro hdpc
    simp [createAddress, hdpc, hv]
  · intro db' a h
    cases hv : (verifyPostcode db d.postcode).1 with
    | false =>
      exfalso
      simp [createAddress, hv] at h
    | true =>
      simp only [createAddress, hv, Bool.not_true, Bool.false_eq_true, if_false,
        Except.ok.injEq, Prod.mk.injEq] at h
      obtain ⟨-, h2⟩ := h
      exact ⟨by rw [← h2], rfl⟩

/-- An address-creation payload with a postcode outside `sampleDb`'s registry. -/
def outsideAreaAddr : AddressCreate :=
  { postcode := "9999", city := "Nowhere", street := "Side St", building := none,
    floor := none, apartment := none, instructions := none, label := none,
    isDefault := false }

/-- C5 witness: postcode 9999 is not in `sampleDb`'s registry, so verification
answers not-serviceable and creation fails. -/
theorem verifyPostcode_gates_createAddress_witness :
    verifyPostcode sampleDb "9999" = (false, none) ∧
    createAddress sampleDb 7 11 outsideAreaAddr =
      .error ("Postcode " ++ "9999" ++ " is not in our service area") := by
  have h := (verifyPostcode_gates_createAddress sampleDb "9999" 7 11 outsideAreaAddr).1
    (by decide)
  exact ⟨h.1, h.2 rfl⟩

/-! ### C1: order totals -/

theorem orderLineFold_subtotal (db : Db) :
    ∀ (l : List CartItem) (acc : Money × List OrderItem),
      acc.1 = (acc.2.map OrderItem.lineTotal).sum →
      (l.foldl (orderLineFold db) acc).1 =
        ((l.foldl (orderLineFold db) acc).2.map OrderItem.lineTotal).sum := by
  intro l
  induction l with
  | nil => intro acc h; simpa using h
  | cons ci rest ih =>
    intro acc h
    simp only [List.foldl_cons]
    apply ih
    cases hf : db.products.find? (fun p => p.id == ci.productId) with
    | none => simp only [orderLineFold, hf]; exact h
    | some p =>
      cases hp : p.isActive with
      | false =>
        simp only [orderLineFold, hf, hp, Bool.false_eq_true, if_false]
        exact h
      | true =>
        simp only [orderLineFold, hf, hp, if_true]
        simp [h]

theorem orderLineFold_items (db : Db) :
    ∀ (l : List CartItem) (acc : Money × List OrderItem),
      (∀ it ∈ acc.2,
        it.lineTotal = it.priceAtPurchase * (it.quantity : Int) ∧
        ∃ p ∈ db.products, p.id = it.productId ∧ p.isActive = true ∧
          it.priceAtPurchase = p.price) →
      ∀ it ∈ (l.foldl (orderLineFold db) acc).2,
        it.lineTotal = it.priceAtPurchase * (it.quantity : Int) ∧
        ∃ p ∈ db.products, p.id = it.productId ∧ p.isActive = true ∧
          it.priceAtPurchase = p.price := by
  intro l
  induction l with
  | nil => intro acc h; simpa using h
  | cons ci rest ih =>
    intro acc h
    simp only [List.foldl_cons]
    apply ih
    cases hf : db.products.find? (fun p => p.id == ci.productId) with
    | none => simp only [orderLineFold, hf]; exact h
    | some p =>
      cases hp : p.isActive with
      | false =>
        simp only [orderLineFold, hf, hp, Bool.false_eq_true, if_false]
        exact h
      | true =>
        simp only [orderLineFold, hf, hp, if_true]
        intro it hit
        rw [List.mem_append] at hit
        cases hit with
        | inl hmem => exact h it hmem
        | inr hnew =>
          rw [List.mem_singleton] at hnew
          subst hnew
          refine ⟨rfl, p, List.mem_of_find?_eq_some hf, ?_, hp, rfl⟩
          have := List.find?_some hf
          exact eq_of_beq this

/-- C1: every order returned by `create_order` satisfies
`total = subtotal + delivery_fee`, `subtotal = sum of line_total` over its
items, and for every item `line_total = price_at_purchase * quantity`, where
`price_at_purchase` is the current price of an active product row of the
order-creation-time database. -/
theorem createOrder_totals (db : Db) (cfg : Settings) (year userId oid : Nat)
    (data : OrderCreate) (db' : Db) (o : Order)
    (h : createOrder db cfg year userId oid data = .ok (db', o)) :
    o.total = o.subtotal + o.deliveryFee ∧
    o.subtotal = (o.items.map OrderItem.lineTotal).sum ∧
    ∀ it ∈ o.items,
      it.lineTotal = it.priceAtPurchase * (it.quantity : Int) ∧
      ∃ p ∈ db.products, p.id = it.productId ∧ p.isActive = true ∧
        it.priceAtPurchase = p.price := by
  cases ha : getVerifiedAddress db data.addressId userId with
  | none => simp [createOrder, ha] at h
  | some address =>
    cases hcrt : getCart db userId with
    | none => simp [createOrder, ha, hcrt] at h
    | some cart =>
      cases he : cart.items.isEmpty with
      | true => simp [createOrder, ha, hcrt, he] at h
      | false =>
        cases hi : (cart.items.foldl (orderLineFold db) ((0 : Money), [])).2.isEmpty with
        | true => simp [createOrder, ha, hcrt, he, hi] at h
        | false =>
          simp only [createOrder, ha, hcrt, he, hi, Bool.false_eq_true, if_false,
            Except.ok.injEq, Prod.mk.injEq] at h
          obtain ⟨-, h2⟩ := h
          subst h2
          refine ⟨rfl, ?_, ?_⟩
          · exact orderLineFold_subtotal db cart.items ((0 : Money), []) (by simp)
          · exact orderLineFold_items db cart.items ((0 : Money), []) (by simp)

/-- C1 witness: checkout of `sampleDb` (prices 24.95 and 12.50, quantities 2
and 1, delivery fee 29.00). -/
theorem createOrder_totals_witness :
    sampleOrder.total = sampleOrder.subtotal + sampleOrder.deliveryFee ∧
    sampleOrder.subtotal = (sampleOrder.items.map OrderItem.lineTotal).sum ∧
    ∀ it ∈ sampleOrder.items,
      it.lineTotal = it.priceAtPurchase * (it.quantity : Int) ∧
      ∃ p ∈ sampleDb.products, p.id = it.productId ∧ p.isActive = true ∧
        it.priceAtPurchase = p.price :=
  createOrder_totals sampleDb { deliveryFee := 2900 } 2026 7 100
    { addressId := 10, notes := none } sampleDbAfter sampleOrder rfl

/-! ### C4: order-creation preconditions -/

theorem orderLineFold_acc_ne_nil (db : Db) :
    ∀ (l : List CartItem) (acc : Money × List OrderItem),
      acc.2 ≠ [] → (l.foldl (orderLineFold db) acc).2 ≠ [] := by
  intro l
  induction l with
  | nil => intro acc h; simpa using h
  | cons ci rest ih =>
    intro acc h
    simp only [List.foldl_cons]
    apply ih
    cases hf : db.products.find? (fun p => p.id == ci.productId) with
    | none => simp only [orderLineFold, hf]; exact h
    | some p =>
      cases hp : p.isActive with
      | false =>
        simp only [orderLineFold, hf, hp, Bool.false_eq_true, if_false]
        exact h
      | true =>
        simp only [orderLineFold, hf, hp, if_true]
        simp

theorem orderLineFold_items_nil_iff (db : Db) :
    ∀ (l : List CartItem) (acc : Money × List OrderItem),
      (l.foldl (orderLineFold db) acc).2 = [] ↔
        (acc.2 = [] ∧ ∀ ci ∈ l, ∀ p,
          db.products.find? (fun q => q.id == ci.productId) = some p →
            p.isActive = false) := by
  intro l
  induction l with
  | nil => intro acc; simp
  | cons ci rest ih =>
    intro acc
    simp only [List.foldl_cons]
    rw [ih]
    cases hf : db.products.find? (fun p => p.id == ci.productId) with
    | none =>
      simp only [orderLineFold, hf, List.forall_mem_cons]
      constructor
      · rintro ⟨h1, h2⟩
        exact ⟨h1, by intro p hp; exact absurd hp (by simp), h2⟩
      · rintro ⟨h1, -, h2⟩
        exact ⟨h1, h2⟩
    | some p =>
      cases hp : p.isActive with
      | false =>
        simp only [orderLineFold, hf, hp, Bool.false_eq_true, if_false,
          List.forall_mem_cons]
        constructor
        · rintro ⟨h1, h2⟩
          refine ⟨h1, ?_, h2⟩
          intro q hq
          injection hq with hq
          rw [← hq]
          exact hp
        · rintro ⟨h1, -, h2⟩
          exact ⟨h1, h2⟩
      | true =>
        simp only [orderLineFold, hf, hp, if_true, List.forall_mem_cons]
        constructor
        · rintro ⟨h1, -⟩
          exact absurd h1 (by simp)
        · rintro ⟨-, hci, -⟩
          have := hci p rfl
          rw [hp] at this
          exact absurd this (by simp)

theorem getCart_setCartItems (db : Db) (u : Nat) (items : List CartItem) (c : Cart)
    (h : getCart db u = some c) :
    getCart (setCartItems db u items) u = some { c with items := items } := by
  have hfind : db.carts.find? (fun c => c.userId == u) = some c := h
  have hcu := List.find?_some hfind
  have hmap := find?_map_comm
    (fun c => if c.userId == u then { c with items := items } else c)
    (fun c => c.userId == u)
    (by intro a; by_cases ha : (a.userId == u) = true <;> simp [ha])
    db.carts
  have hcu2 : c.userId = u := eq_of_beq hcu
  show (db.carts.map _).find? _ = _
  rw [hmap, hfind]
  simp [hcu2]

theorem clearCart_spec (db : Db) (u : Nat) (c : Cart) (h : getCart db u = some c) :
    getCart (clearCart db u) u = some { c with items := [] } := by
  unfold clearCart
  rw [h]
  exact getCart_setCartItems db u [] c h

theorem clearCart_orders (db : Db) (u : Nat) : (clearCart db u).orders = db.orders := by
  unfold clearCart
  cases getCart db u <;> rfl

theorem clearCart_invoices (db : Db) (u : Nat) :
    (clearCart db u).invoices = db.invoices := by
  unfold clearCart
  cases getCart db u <;> rfl

/-- C4: `create_order` succeeds exactly when the chosen address exists,
belongs to the requesting user and is verified, the user's cart exists and
is non-empty, and some cart line references a still-active product; success
creates the order with initial status PLACED (appended to the orders table)
and clears the cart, and any violated precondition yields a validation
error — an `Except.error`, which carries no new state, so nothing is
created. -/
theorem createOrder_preconditions (db : Db) (cfg : Settings) (year u oid : Nat)
    (data : OrderCreate) :
    ((∃ r, createOrder db cfg year u oid data = .ok r) ↔
        ((getVerifiedAddress db data.addressId u).isSome ∧
         ∃ cart, getCart db u = some cart ∧ cart.items ≠ [] ∧
           ∃ ci ∈ cart.items, ∃ p,
             db.products.find? (fun q => q.id == ci.productId) = some p ∧
             p.isActive = true)) ∧
    (∀ db' o, createOrder db cfg year u oid data = .ok (db', o) →
        o.status = .PLACED ∧
        db'.orders = db.orders ++ [o] ∧
        ∃ c, getCart db' u = some c ∧ c.items = []) ∧
    (¬((getVerifiedAddress db data.addressId u).isSome ∧
         ∃ cart, getCart db u = some cart ∧ cart.items ≠ [] ∧
           ∃ ci ∈ cart.items, ∃ p,
             db.products.find? (fun q => q.id == ci.productId) = some p ∧
             p.isActive = true) →
      ∃ msg, createOrder db cfg year u oid data = .error msg) := by
  have hiff : (∃ r, createOrder db cfg year u oid data = .ok r) ↔
      ((getVerifiedAddress db data.addressId u).isSome ∧
       ∃ cart, getCart db u = some cart ∧ cart.items ≠ [] ∧
         ∃ ci ∈ cart.items, ∃ p,
           db.products.find? (fun q => q.id == ci.productId) = some p ∧
           p.isActive = true) := by
    constructor
    · rintro ⟨r, hr⟩
      cases ha : getVerifiedAddress db data.addressId u with
      | none => simp [createOrder, ha] at hr
      | some address =>
        cases hcrt : getCart db u with
        | none => simp [createOrder, ha, hcrt] at hr
        | some cart =>
          cases he : cart.items.isEmpty with
          | true => simp [createOrder, ha, hcrt, he] at hr
          | false =>
            cases hi : (cart.items.foldl (orderLineFold db) ((0 : Money), [])).2.isEmpty with
            | true => simp [createOrder, ha, hcrt, he, hi] at hr
            | false =>
              refine ⟨rfl, cart, rfl, List.isEmpty_eq_false.mp he, ?_⟩
              have hne : (cart.items.foldl (orderLineFold db) ((0 : Money), [])).2 ≠ [] :=
                List.isEmpty_eq_false.mp hi
              rw [Ne, orderLineFold_items_nil_iff db cart.items ((0 : Money), [])] at hne
              push_neg at hne
              obtain ⟨ci, hci, p, hp, hact⟩ := hne (by rfl)
              exact ⟨ci, hci, p, hp, by simpa using hact⟩
    · rintro ⟨ha, cart, hcrt, hne, ci, hci, p, hp, hact⟩
      obtain ⟨address, ha⟩ := Option.isSome_iff_exists.mp ha
      have he : cart.items.isEmpty = false := List.isEmpty_eq_false.mpr hne
      have hi : (cart.items.foldl (orderLineFold db) ((0 : Money), [])).2.isEmpty = false := by
        rw [List.isEmpty_eq_false, Ne, orderLineFold_items_nil_iff db cart.items ((0 : Money), [])]
        push_neg
        intro _
        exact ⟨ci, hci, p, hp, by simp [hact]⟩
      cases hE : createOrder db cfg year u oid data with
      | ok r => exact ⟨r, rfl⟩
      | error e => simp [createOrder, ha, hcrt, he, hi] at hE
  refine ⟨hiff, ?_, ?_⟩
  · intro db' o h
    cases ha : getVerifiedAddress db data.addressId u with
    | none => simp [createOrder, ha] at h
    | some address =>
      cases hcrt : getCart db u with
      | none => simp [createOrder, ha, hcrt] at h
      | some cart =>
        cases he : cart.items.isEmpty with
        | true => simp [createOrder, ha, hcrt, he] at h
        | false =>
          cases hi : (cart.items.foldl (orderLineFold db) ((0 : Money), [])).2.isEmpty with
          | true => simp [createOrder, ha, hcrt, he, hi] at h
          | false =>
            simp only [createOrder, ha, hcrt, he, hi, Bool.false_eq_true, if_false,
              Except.ok.injEq, Prod.mk.injEq] at h
            obtain ⟨h1, h2⟩ := h
            subst h2
            refine ⟨rfl, ?_, ?_⟩
            · rw [← h1, clearCart_orders]
            · rw [← h1]
              exact ⟨_, clearCart_spec _ u cart hcrt, rfl⟩
  · intro hnp
    cases hE : createOrder db cfg year u oid data with
    | ok r => exact absurd (hiff.mp ⟨r, hE⟩) hnp
    | error e => exact ⟨e, rfl⟩

/-- C4 witness: on `sampleDb` every precondition holds and checkout succeeds. -/
theorem createOrder_preconditions_witness :
    ∃ r, createOrder sampleDb { deliveryFee := 2900 } 2026 7 100
      { addressId := 10, notes := none } = .ok r :=
  (createOrder_preconditions sampleDb { deliveryFee := 2900 } 2026 7 100
      { addressId := 10, notes := none }).1.mpr
    ⟨by decide,
     { userId := 7, items := [ { productId := 1, quantity := 2 },
                               { productId := 2, quantity := 1 },
                               { productId := 3, quantity := 4 } ] },
     by decide, by decide,
     { productId := 1, quantity := 2 }, by decide,
     { id := 1, price := 2495, isActive := true }, by decide, by decide⟩

/-! ### C6, C7, C10: cart merging and accumulation -/

theorem find?_updateFirst_quantity (pid : Nat) (q : Nat) :
    ∀ (items : List CartItem) (it0 : CartItem),
      items.find? (fun it => it.productId == pid) = some it0 →
      (updateFirst (fun it => it.productId == pid)
          (fun it => { it with quantity := q }) items).find?
        (fun it => it.productId == pid) = some { it0 with quantity := q } := by
  intro items it0 h
  have hp := List.find?_some h
  exact find?_updateFirst _ _ items it0 h hp

theorem cartQuantity_updateFirst_other (pid p2 : Nat) (f : CartItem → CartItem)
    (hne : (p2 == pid) = false)
    (hf : ∀ it, (f it).productId = it.productId) :
    ∀ items : List CartItem,
      cartQuantity (updateFirst (fun it => it.productId == p2) f items) pid =
        cartQuantity items pid := by
  intro items
  unfold cartQuantity
  rw [find?_updateFirst_of_disjoint]
  intro a ha
  have ha2 : a.productId = p2 := eq_of_beq ha
  constructor
  · rw [hf a, ha2]; exact hne
  · rw [ha2]; exact hne

theorem countP_updateFirst_congr {α : Type} (p q : α → Bool) (f : α → α)
    (h : ∀ a, q (f a) = q a) :
    ∀ l : List α, (updateFirst p f l).countP q = l.countP q := by
  intro l
  induction l with
  | nil => rfl
  | cons x xs ih =>
    cases hx : p x with
    | true => simp [updateFirst, hx, List.countP_cons, h x]
    | false => simp [updateFirst, hx, List.countP_cons, ih]

theorem cartQuantity_syncOneItem (db : Db) (items : List CartItem) (d : CartItemAdd)
    (pid : Nat) :
    cartQuantity (syncOneItem db items d) pid =
      if d.productId == pid && (getActiveProduct db d.productId).isSome then
        mergeQty (cartQuantity items pid) d.quantity
      else cartQuantity items pid := by
  cases hga : getActiveProduct db d.productId with
  | none =>
    rw [if_neg (by simp [hga])]
    simp only [syncOneItem, hga]
  | some p =>
    cases hd : (d.productId == pid) with
    | true =>
      have hdp : d.productId = pid := eq_of_beq hd
      subst hdp
      rw [if_pos (by simp [hga])]
      cases hfind : items.find? (fun it => it.productId == d.productId) with
      | some existing =>
        simp only [syncOneItem, hga, hfind]
        unfold cartQuantity
        rw [find?_updateFirst_quantity d.productId (max existing.quantity d.quantity)
          items existing hfind, hfind]
        rfl
      | none =>
        simp only [syncOneItem, hga, hfind]
        unfold cartQuantity
        rw [find?_append_none _ _ _ hfind, hfind]
        simp [List.find?, mergeQty]
    | false =>
      rw [if_neg (by simp [hd])]
      cases hfind : items.find? (fun it => it.productId == d.productId) with
      | some existing =>
        simp only [syncOneItem, hga, hfind]
        exact cartQuantity_updateFirst_other pid d.productId
          (fun it => { it with quantity := max existing.quantity d.quantity })
          hd (fun it => rfl) items
      | none =>
        simp only [syncOneItem, hga, hfind]
        unfold cartQuantity
        cases hfp : items.find? (fun it => it.productId == pid) with
        | some it0 => rw [find?_append_some _ _ _ _ hfp]

        | none =>
          rw [find?_append_none _ _ _ hfp]
          simp [List.find?, hd]

theorem foldl_syncOneItem_proj (db : Db) (pid : Nat) :
    ∀ (ds : List CartItemAdd) (items : List CartItem),
      cartQuantity (ds.foldl (syncOneItem db) items) pid =
        expectedMergedQty db pid (cartQuantity items pid) ds := by
  intro ds
  induction ds with
  | nil => intro items; rfl
  | cons d rest ih =>
    intro items
    simp only [List.foldl_cons, expectedMergedQty] at *
    rw [ih (syncOneItem db items d), cartQuantity_syncOneItem]

/-- C6: for every user cart and incoming (product, quantity) list,
`sync_guest_cart` acts per product as the specification's merge rule: an
incoming pair whose product is missing or inactive is skipped; a pair for a
product already in the cart keeps the maximum of the two quantities (not the
sum); a pair for a new product inserts a line with the incoming quantity. -/
theorem syncGuestCart_merges_max (db : Db) (u : Nat) (ds : List CartItemAdd)
    (cart : Cart) (pid : Nat) (hc : getCart db u = some cart) :
    ∃ cart', getCart (syncGuestCart db u ds) u = some cart' ∧
      cartQuantity cart'.items pid =
        expectedMergedQty db pid (cartQuantity cart.items pid) ds := by
  simp only [syncGuestCart, getOrCreateCart, hc]
  exact ⟨_, getCart_setCartItems db u _ cart hc, foldl_syncOneItem_proj db pid ds cart.items⟩

theorem addItem_existing_core (db : Db) (u : Nat) (d : CartItemAdd) (cart : Cart)
    (q : Nat) (hc : getCart db u = some cart)
    (hq : cartQuantity cart.items d.productId = some q)
    (hp : (getActiveProduct db d.productId).isSome) :
    ∃ db', addItem db u d = .ok db' ∧
      ∃ cart', getCart db' u = some cart' ∧
        cartQuantity cart'.items d.productId = some (q + d.quantity) ∧
        cart'.items.countP (fun it => it.productId == d.productId) =
          cart.items.countP (fun it => it.productId == d.productId) := by
  obtain ⟨p, hpe⟩ := Option.isSome_iff_exists.mp hp
  obtain ⟨it0, hfind, hq0⟩ := Option.map_eq_some'.mp hq
  have hrun : addItem db u d = .ok (setCartItems db u (addItemToItems cart.items d)) := by
    simp only [addItem, getOrCreateCart, hc, hpe]
  refine ⟨_, hrun, ?_⟩
  refine ⟨_, getCart_setCartItems db u _ cart hc, ?_, ?_⟩
  · show cartQuantity (addItemToItems cart.items d) d.productId = _
    unfold cartQuantity
    simp only [addItemToItems, hfind]
    rw [find?_updateFirst_quantity d.productId (it0.quantity + d.quantity)
      cart.items it0 hfind]
    simp [hq0]
  · show (addItemToItems cart.items d).countP _ = _
    simp only [addItemToItems, hfind]
    exact countP_updateFirst_congr (fun it => it.productId == d.productId)
      (fun it => it.productId == d.productId)
      (fun it => { it with quantity := it0.quantity + d.quantity })
      (fun a => rfl) cart.items

/-- C6 witness: merging a guest item of quantity 3 into an existing line of
quantity 5 yields quantity 5 (max, not sum). -/
theorem syncGuestCart_merges_max_witness :
    (∃ cart', getCart (syncGuestCart guestSyncDb 7 [{ productId := 1, quantity := 3 }]) 7 =
        some cart' ∧
      cartQuantity cart'.items 1 =
        expectedMergedQty guestSyncDb 1 (cartQuantity guestSyncCart.items 1)
          [{ productId := 1, quantity := 3 }]) ∧
    (getCart (syncGuestCart guestSyncDb 7 [{ productId := 1, quantity := 3 }]) 7).map
        (fun c => cartQuantity c.items 1) = some (some 5) :=
  ⟨syncGuestCart_merges_max guestSyncDb 7 [{ productId := 1, quantity := 3 }]
      guestSyncCart 1 (by decide),
   by decide⟩

/-- C7: for a product already in the cart with quantity q, `add_item` with a
valid input quantity d leaves a single line for the product with quantity
q + d (sum, not max): its quantity becomes q + d and the number of lines for
that product is unchanged. -/
theorem addItem_sums_quantity (db : Db) (u : Nat) (d : CartItemAdd) (cart : Cart)
    (q : Nat) (hvalid : d.valid) (hc : getCart db u = some cart)
    (hq : cartQuantity cart.items d.productId = some q)
    (hp : (getActiveProduct db d.productId).isSome) :
    ∃ db', addItem db u d = .ok db' ∧
      ∃ cart', getCart db' u = some cart' ∧
        cartQuantity cart'.items d.productId = some (q + d.quantity) ∧
        cart'.items.countP (fun it => it.productId == d.productId) =
          cart.items.countP (fun it => it.productId == d.productId) :=
  addItem_existing_core db u d cart q hc hq hp

/-- C7 witness: product 1 is in `sampleDb`'s cart with quantity 2 (the first
add); adding it again with quantity 3 yields one line with quantity 5. -/
theorem addItem_sums_quantity_witness :
    ∃ db', addItem sampleDb 7 { productId := 1, quantity := 3 } = .ok db' ∧
      ∃ cart', getCart db' 7 = some cart' ∧
        cartQuantity cart'.items 1 = some (2 + 3) ∧
        cart'.items.countP (fun it => it.productId == 1) =
          sampleCart.items.countP (fun it => it.productId == 1) :=
  addItem_sums_quantity sampleDb 7 { productId := 1, quantity := 3 } sampleCart 2
    (by constructor <;> decide) (by decide) (by decide) (by decide)

/-- C10: the accumulated quantity of a cart line has no upper bound —
`add_item` enforces 1..99 only on the incoming request quantity, so with an
existing line at quantity q and a valid request quantity d it succeeds and
stores q + d even when q + d exceeds 99. -/
theorem addItem_unbounded (db : Db) (u : Nat) (d : CartItemAdd) (cart : Cart)
    (q : Nat) (hvalid : d.valid) (hover : 99 < q + d.quantity)
    (hc : getCart db u = some cart)
    (hq : cartQuantity cart.items d.productId = some q)
    (hp : (getActiveProduct db d.productId).isSome) :
    ∃ db', addItem db u d = .ok db' ∧
      ∃ cart', getCart db' u = some cart' ∧
        cartQuantity cart'.items d.productId = some (q + d.quantity) := by
  obtain ⟨db', h1, cart', h2, h3, -⟩ := addItem_existing_core db u d cart q hc hq hp
  exact ⟨db', h1, cart', h2, h3⟩

/-- C10 witness: a line with quantity 98 plus a valid request of 99 grows to
197 without error. -/
theorem addItem_unbounded_witness :
    ∃ db', addItem bigQtyDb 7 { productId := 1, quantity := 99 } = .ok db' ∧
      ∃ cart', getCart db' 7 = some cart' ∧
        cartQuantity cart'.items 1 = some (98 + 99) :=
  addItem_unbounded bigQtyDb 7 { productId := 1, quantity := 99 } bigQtyCart 98
    (by constructor <;> decide) (by decide) (by decide) (by decide) (by decide)

/-! ### C8, C9: address-book default flag and update frame -/

theorem countP_unset_self (db : Db) (u : Nat) :
    (unsetDefaultAddresses db u).addresses.countP
      (fun a => a.userId == u && a.isDefault) = 0 := by
  show (db.addresses.map _).countP _ = 0
  induction db.addresses with
  | nil => rfl
  | cons a rest ih =>
    cases hg : (a.userId == u && a.isDefault) with
    | true =>
      simp only [List.map_cons, hg, if_true, List.countP_cons]
      have : (({ a with isDefault := false } : Address).userId == u &&
          ({ a with isDefault := false } : Address).isDefault) = false := by
        simp
      rw [this]
      simpa using ih
    | false =>
      simp only [List.map_cons, hg, Bool.false_eq_true, if_false, List.countP_cons, hg]
      simpa using ih

theorem countP_unset_other (db : Db) (u v : Nat) (hne : v ≠ u) :
    (unsetDefaultAddresses db u).addresses.countP
      (fun a => a.userId == v && a.isDefault) =
    db.addresses.countP (fun a => a.userId == v && a.isDefault) := by
  show (db.addresses.map _).countP _ = _
  apply countP_map_congr
  intro a
  cases hg : (a.userId == u && a.isDefault) with
  | true =>
    simp only [hg, if_true]
    have hau : a.userId = u := eq_of_beq (Bool.and_elim_left hg)
    have : (({ a with isDefault := false } : Address).userId == v) = false := by
      simp only []
      rw [hau]
      exact beq_eq_false_iff_ne.mpr (fun h => hne h.symm)
    have hav : (a.userId == v) = false := by
      rw [hau]
      exact beq_eq_false_iff_ne.mpr (fun h => hne h.symm)
    simp [this, hav]
  | false =>
    simp only [hg, Bool.false_eq_true, if_false]

/-- C8: at most one address per user carries `is_default`; starting from any
database satisfying this, `_unset_default_addresses` zeroes the user's
default count, and both `create_address` and `update_address` preserve the
at-most-one-default invariant for every user (they unset the user's other
defaults before applying a requested default flag). -/
theorem defaultAddress_invariant (db : Db)
    (hinv : ∀ v : Nat, db.addresses.countP (fun a => a.userId == v && a.isDefault) ≤ 1) :
    (∀ u, (unsetDefaultAddresses db u).addresses.countP
        (fun a => a.userId == u && a.isDefault) = 0) ∧
    (∀ u i d db' a, createAddress db u i d = .ok (db', a) →
        ∀ v, db'.addresses.countP (fun a => a.userId == v && a.isDefault) ≤ 1) ∧
    (∀ aid u upd db' a, updateAddress db aid u upd = some (db', a) →
        ∀ v, db'.addresses.countP (fun a => a.userId == v && a.isDefault) ≤ 1) := by
  refine ⟨fun u => countP_unset_self db u, ?_, ?_⟩
  · intro u i d db' a h v
    cases hv : (verifyPostcode db d.postcode).1 with
    | false => exfalso; simp [createAddress, hv] at h
    | true =>
      simp only [createAddress, hv, Bool.not_true, Bool.false_eq_true, if_false,
        Except.ok.injEq, Prod.mk.injEq] at h
      obtain ⟨h1, -⟩ := h
      subst h1
      cases hd : d.isDefault with
      | true =>
        simp only [hd, if_true]
        rw [List.countP_append]
        by_cases hvu : v = u
        · subst hvu
          rw [countP_unset_self db v]
          simp [List.countP_cons, hd]
        · rw [countP_unset_other db u v hvu]
          have hne2 : (u == v) = false := beq_eq_false_iff_ne.mpr (fun h => hvu h.symm)
          simpa [List.countP_cons, hne2] using hinv v
      | false =>
        simp only [hd, Bool.false_eq_true, if_false]
        rw [List.countP_append]
        simpa [List.countP_cons] using hinv v
  · intro aid u upd db' a h v
    cases ha0 : getAddressById db aid u with
    | none => exfalso; simp [updateAddress, ha0] at h
    | some a0 =>
      cases hb : (upd.isDefault == some true) with
      | true =>
        simp only [updateAddress, ha0, hb, if_true, Option.some.injEq, Prod.mk.injEq] at h
        obtain ⟨h1, -⟩ := h
        subst h1
        by_cases hvu : v = u
        · subst hvu
          calc (updateFirst (fun a => a.id == aid && a.userId == v)
                  (fun a => applyAddressUpdate a upd)
                  (unsetDefaultAddresses db v).addresses).countP
                (fun a => a.userId == v && a.isDefault)
              ≤ (unsetDefaultAddresses db v).addresses.countP
                  (fun a => a.userId == v && a.isDefault) + 1 :=
                countP_updateFirst_le_succ _ _ _ _
            _ = 1 := by rw [countP_unset_self db v]
        · have hle := countP_updateFirst_le
            (fun a => a.id == aid && a.userId == u)
            (fun a => a.userId == v && a.isDefault)
            (fun a => applyAddressUpdate a upd)
            (by
              intro a hpa hqa
              exfalso
              have hau : a.userId = u := eq_of_beq (Bool.and_elim_right hpa)
              have hav : ((applyAddressUpdate a upd).userId == v) = true :=
                Bool.and_elim_left hqa
              have : a.userId = v := eq_of_beq hav
              exact hvu (by rw [← this, hau]))
            (unsetDefaultAddresses db u).addresses
          refine le_trans hle ?_
          rw [countP_unset_other db u v hvu]
          exact hinv v
      | false =>
        simp only [updateAddress, ha0, hb, Bool.false_eq_true, if_false,
          Option.some.injEq, Prod.mk.injEq] at h
        obtain ⟨h1, -⟩ := h
        subst h1
        have hle := countP_updateFirst_le
          (fun a => a.id == aid && a.userId == u)
          (fun a => a.userId == v && a.isDefault)
          (fun a => applyAddressUpdate a upd)
          (by
            intro a hpa hqa
            have hqa2 : ((applyAddressUpdate a upd).userId == v &&
                (applyAddressUpdate a upd).isDefault) = true := hqa
            show (a.userId == v && a.isDefault) = true
            cases hu : upd.isDefault with
            | none =>
              have h1 : (applyAddressUpdate a upd).isDefault = a.isDefault := by
                simp [applyAddressUpdate, hu]
              have h2 : (applyAddressUpdate a upd).userId = a.userId := rfl
              rw [h1, h2] at hqa2
              exact hqa2
            | some b =>
              cases b with
              | true => exact absurd hb (by simp [hu])
              | false =>
                exfalso
                have h1 : (applyAddressUpdate a upd).isDefault = false := by
                  simp [applyAddressUpdate, hu]
                rw [h1, Bool.and_false] at hqa2
                exact Bool.false_ne_true hqa2)
          db.addresses
        exact le_trans hle (hinv v)

/-- C8 witness: `sampleDb` satisfies the invariant; the concrete conclusion
follows for it. -/
theorem defaultAddress_invariant_witness :
    (∀ u, (unsetDefaultAddresses sampleDb u).addresses.countP
        (fun a => a.userId == u && a.isDefault) = 0) ∧
    (∀ u i d db' a, createAddress sampleDb u i d = .ok (db', a) →
        ∀ v, db'.addresses.countP (fun a => a.userId == v && a.isDefault) ≤ 1) ∧
    (∀ aid u upd db' a, updateAddress sampleDb aid u upd = some (db', a) →
        ∀ v, db'.addresses.countP (fun a => a.userId == v && a.isDefault) ≤ 1) :=
  defaultAddress_invariant sampleDb
    (by
      intro v
      have h : sampleDb.addresses.countP (fun a => a.userId == v && a.isDefault) ≤
          sampleDb.addresses.length := List.countP_le_length _
      simpa using h)

/-- C9: `update_address` never changes the address's postcode, city, owner
or `is_verified` flag (the update schema has no such fields); exactly the
seven request fields change, and each only when present in the request
(absent fields keep their stored value); the updated row is what the store
then holds for that address id and user. -/
theorem updateAddress_frame (db : Db) (aid u : Nat) (upd : AddressUpdate)
    (db' : Db) (a' : Address)
    (h : updateAddress db aid u upd = some (db', a')) :
    ∃ a0, getAddressById db aid u = some a0 ∧
      a'.postcode = a0.postcode ∧ a'.city = a0.city ∧
      a'.userId = a0.userId ∧ a'.isVerified = a0.isVerified ∧ a'.id = a0.id ∧
      a'.street = upd.street.getD a0.street ∧
      a'.building = upd.building.getD a0.building ∧
      a'.floor = upd.floor.getD a0.floor ∧
      a'.apartment = upd.apartment.getD a0.apartment ∧
      a'.instructions = upd.instructions.getD a0.instructions ∧
      a'.label = upd.label.getD a0.label ∧
      a'.isDefault = upd.isDefault.getD a0.isDefault ∧
      getAddressById db' aid u = some a' := by
  cases ha0 : getAddressById db aid u with
  | none => exfalso; simp [updateAddress, ha0] at h
  | some a0 =>
    have hfind : db.addresses.find? (fun a => a.id == aid && a.userId == u) = some a0 := ha0
    have hpa0 := List.find?_some hfind
    cases hb : (upd.isDefault == some true) with
    | false =>
      simp only [updateAddress, ha0, hb, Bool.false_eq_true, if_false,
        Option.some.injEq, Prod.mk.injEq] at h
      obtain ⟨h1, h2⟩ := h
      subst h1
      subst h2
      refine ⟨a0, rfl, rfl, rfl, rfl, rfl, rfl, rfl, rfl, rfl, rfl, rfl, rfl, rfl, ?_⟩
      show (updateFirst _ _ db.addresses).find? _ = _
      exact find?_updateFirst _ _ db.addresses a0 hfind hpa0
    | true =>
      have hbe : upd.isDefault = some true := eq_of_beq hb
      simp only [updateAddress, ha0, hb, if_true, Option.some.injEq, Prod.mk.injEq] at h
      obtain ⟨h1, h2⟩ := h
      subst h1
      subst h2
      refine ⟨a0, rfl, rfl, rfl, rfl, rfl, rfl, rfl, rfl, rfl, rfl, rfl, rfl,
        by show Option.getD _ _ = _; rw [hbe]; rfl, ?_⟩
      have hg : ∀ x : Address,
          ((fun a => a.id == aid && a.userId == u)
            (if x.userId == u && x.isDefault then { x with isDefault := false } else x)) =
          ((fun a => a.id == aid && a.userId == u) x) := by
        intro x
        by_cases hx : (x.userId == u && x.isDefault) = true <;> simp [hx]
      have hstep1 : (unsetDefaultAddresses db u).addresses.find?
          (fun a => a.id == aid && a.userId == u) =
          some (if a0.userId == u && a0.isDefault then { a0 with isDefault := false }
                else a0) := by
        show (db.addresses.map _).find? _ = _
        rw [find?_map_comm _ _ hg db.addresses, hfind]
        rfl
      have hpg : ((fun a => a.id == aid && a.userId == u)
          ((fun a => applyAddressUpdate a upd)
            (if a0.userId == u && a0.isDefault then { a0 with isDefault := false }
             else a0))) = true := by
        rw [show ((fun a => a.id == aid && a.userId == u)
            ((fun a => applyAddressUpdate a upd)
              (if a0.userId == u && a0.isDefault then { a0 with isDefault := false }
               else a0))) =
            ((fun a => a.id == aid && a.userId == u)
              (if a0.userId == u && a0.isDefault then { a0 with isDefault := false }
               else a0)) from rfl, hg a0]
        exact hpa0
      have hmain := find?_updateFirst (fun a => a.id == aid && a.userId == u)
        (fun a => applyAddressUpdate a upd) (unsetDefaultAddresses db u).addresses
        _ hstep1 hpg
      show (updateFirst _ _ (unsetDefaultAddresses db u).addresses).find? _ = _
      rw [hmain]
      congr 1
      cases hcond : (a0.userId == u && a0.isDefault) with
      | true => rfl
      | false =>
        show applyAddressUpdate a0 upd = applyAddressUpdate { a0 with isDefault := false } upd
        simp [applyAddressUpdate, hbe]

/-- A concrete update request: new street, `is_default` set, rest absent. -/
def sampleAddrUpdate : AddressUpdate :=
  { street := some "New St", building := none, floor := none, apartment := none,
    instructions := none, label := none, isDefault := some true }

/-- The row of `sampleDb` address 10 after `sampleAddrUpdate`. -/
def sampleUpdatedAddr : Address :=
  { id := 10, userId := 7, label := some "Home", postcode := "8000",
    city := "Aarhus", street := "New St", building := none, floor := none,
    apartment := none, instructions := none, isVerified := true,
    isDefault := true }

/-- `sampleDb` after updating address 10 with `sampleAddrUpdate`. -/
def sampleDbUpdated : Db :=
  { sampleDb with addresses := [sampleUpdatedAddr] }

/-- C9 witness: updating address 10 of `sampleDb` changes the street and the
default flag and nothing else. -/
theorem updateAddress_frame_witness :
    ∃ a0, getAddressById sampleDb 10 7 = some a0 ∧
      sampleUpdatedAddr.postcode = a0.postcode ∧ sampleUpdatedAddr.city = a0.city ∧
      sampleUpdatedAddr.userId = a0.userId ∧
      sampleUpdatedAddr.isVerified = a0.isVerified ∧ sampleUpdatedAddr.id = a0.id ∧
      sampleUpdatedAddr.street = sampleAddrUpdate.street.getD a0.street ∧
      sampleUpdatedAddr.building = sampleAddrUpdate.building.getD a0.building ∧
      sampleUpdatedAddr.floor = sampleAddrUpdate.floor.getD a0.floor ∧
      sampleUpdatedAddr.apartment = sampleAddrUpdate.apartment.getD a0.apartment ∧
      sampleUpdatedAddr.instructions = sampleAddrUpdate.instructions.getD a0.instructions ∧
      sampleUpdatedAddr.label = sampleAddrUpdate.label.getD a0.label ∧
      sampleUpdatedAddr.isDefault = sampleAddrUpdate.isDefault.getD a0.isDefault ∧
      getAddressById sampleDbUpdated 10 7 = some sampleUpdatedAddr :=
  updateAddress_frame sampleDb 10 7 sampleAddrUpdate sampleDbUpdated sampleUpdatedAddr
    (by decide)

/-! ### C3: invoice numbering -/

/-- A database state whose most recently inserted invoice of 2026 (highest
id, last in insertion order) does not carry the year's highest sequence. -/
def invoiceCexDb : Db :=
  { products := [], servicePostcodes := [], addresses := [], carts := [],
    orders := [], invoices := ["INV-2026-000005", "INV-2026-000004"] }

/-- A database state whose invoices are in sequence order, as sequential
checkouts produce them. -/
def invoiceOkDb : Db :=
  { products := [], servicePostcodes := [], addresses := [], carts := [],
    orders := [], invoices := ["INV-2026-000005"] }

/-- C3 counterexample: the generator does not read the highest existing
invoice number of the year — it reads the most recently inserted one. On a
state holding INV-2026-000005 then INV-2026-000004 (in insertion order) the
highest existing number is 5, so the claim demands INV-2026-000006; the code
returns INV-2026-000005, which duplicates an existing invoice number. -/
theorem generateInvoiceNumber_claim_counterexample :
    generateInvoiceNumber invoiceCexDb 2026 = "INV-2026-000005" ∧
    "INV-2026-000005" ∈ invoiceCexDb.invoices ∧
    generateInvoiceNumber invoiceCexDb 2026 ≠ "INV-2026-000006" := by
  decide

/-- C3 (amended): `_generate_invoice_number` returns
`INV-{year}-{seq:06d}` where `seq` is 1 when the current year has no
invoice, and otherwise one plus the sequence parsed from the most recently
inserted (`ORDER BY id DESC`) invoice number of the current year — not the
highest existing number. Only when every existing current-year sequence is
bounded by that most recent one (as under strictly sequential checkout) is
the issued sequence strictly greater than all existing ones, giving
monotonic, duplicate-free numbers. -/
theorem generateInvoiceNumber_amended (db : Db) (year m : Nat) :
    generateInvoiceNumber db year = formatInvoiceNumber year (nextInvoiceSeq db year) ∧
    (db.invoices.reverse.find? (matchesInvoiceYear year) = none →
        nextInvoiceSeq db year = 1) ∧
    (∀ v, db.invoices.reverse.find? (matchesInvoiceYear year) = some v →
        parseTrailingSeq v = some m → nextInvoiceSeq db year = m + 1) ∧
    ((∃ v, db.invoices.reverse.find? (matchesInvoiceYear year) = some v ∧
        parseTrailingSeq v = some m) →
      (∀ w ∈ db.invoices, matchesInvoiceYear year w = true →
        ∀ s, parseTrailingSeq w = some s → s ≤ m) →
      ∀ w ∈ db.invoices, matchesInvoiceYear year w = true →
        ∀ s, parseTrailingSeq w = some s → s < nextInvoiceSeq db year) := by
  refine ⟨rfl, ?_, ?_, ?_⟩
  · intro h
    simp [nextInvoiceSeq, h]
  · intro v hv hp
    simp [nextInvoiceSeq, hv, hp]
  · rintro ⟨v, hv, hp⟩ hbound w hw hm s hs
    have hnext : nextInvoiceSeq db year = m + 1 := by simp [nextInvoiceSeq, hv, hp]
    rw [hnext]
    exact Nat.lt_succ_of_le (hbound w hw hm s hs)

/-- C3 witness: on a year with highest (and latest) sequence 5 the next
number is INV-2026-000006 and its sequence 6 exceeds every existing one. -/
theorem generateInvoiceNumber_amended_witness :
    (generateInvoiceNumber invoiceOkDb 2026 =
      formatInvoiceNumber 2026 (nextInvoiceSeq invoiceOkDb 2026)) ∧
    nextInvoiceSeq invoiceOkDb 2026 = 5 + 1 ∧
    (∀ w ∈ invoiceOkDb.invoices, matchesInvoiceYear 2026 w = true →
        ∀ s, parseTrailingSeq w = some s → s < nextInvoiceSeq invoiceOkDb 2026) ∧
    generateInvoiceNumber invoiceOkDb 2026 = "INV-2026-000006" :=
  ⟨(generateInvoiceNumber_amended invoiceOkDb 2026 5).1,
   (generateInvoiceNumber_amended invoiceOkDb 2026 5).2.2.1 "INV-2026-000005"
     (by decide) (by decide),
   (generateInvoiceNumber_amended invoiceOkDb 2026 5).2.2.2
     ⟨"INV-2026-000005", by decide, by decide⟩
     (by
       intro w hw hm s hs
       have hw2 : w = "INV-2026-000005" := by
         have := hw
         simp only [invoiceOkDb] at this
         simpa using this
       subst hw2
       have he : parseTrailingSeq "INV-2026-000005" = some 5 := by decide
       rw [he] at hs
       injection hs with hs
       omega),
   by decide⟩

end Grocery
